import Mathlib

set_option maxRecDepth 8000

/-!
Shallow embedding of the bun-s3-compats repository: two HTTP adapter
classes exposing an S3-like interface, translated from
src/gitlab/index.ts (GitlabClient / GitlabFile) and the unnamed Alfresco
source file (AlfrescoClient / AlfrescoFile).

Promises are modelled as `Except JsErr` values together with the list of
HTTP requests the operation issued; the network is an oracle function
from requests to responses.  Mutable state (the file handle's stat cache,
the shared authentication ticket slot, option objects) is passed
explicitly.
-/

/-- JavaScript-level failure reasons observable through promise rejection:
transport failures of `fetch`, thrown `TypeError` / `ReferenceError`, and
explicit `Promise.reject(msg)`. -/
inductive JsErr where
  | transport
  | typeError
  | referenceError
  | reject (msg : String)
deriving DecidableEq

/-- A JavaScript number that may be `NaN` (the adapter only ever produces
integral values from header strings). -/
inductive JsNum where
  | nan
  | num (n : Int)
deriving DecidableEq

/-- Decimal digit value of a character, if it is a digit. -/
def digitVal (c : Char) : Option Nat :=
  if 48 ≤ c.toNat ∧ c.toNat ≤ 57 then some (c.toNat - 48) else none

/-- Accumulating decimal parse of a character list; `none` on any non-digit. -/
def digitsToNatAux : Nat → List Char → Option Nat
  | acc, [] => some acc
  | acc, c :: rest =>
    match digitVal c with
    | some d => digitsToNatAux (acc * 10 + d) rest
    | none => none

/-- The JS `Number(...)` coercion as applied to the optional header strings the
GitLab adapter reads: `undefined` gives NaN, the empty string gives 0, a
decimal digit string gives its value, anything else NaN (fractional and signed
forms do not occur in the header values this code consumes). -/
def jsNumber : Option String → JsNum
  | none => .nan
  | some s =>
    match s.data with
    | [] => .num 0
    | l =>
      match digitsToNatAux 0 l with
      | some n => .num (Int.ofNat n)
      | none => .nan

/-- JS truthiness of a possibly-absent string value (`Boolean(x)`):
`undefined` and the empty string are falsy, every other string truthy. -/
def truthyOptStr : Option String → Bool
  | none => false
  | some s => s != ""

/-- First-defined choice on options (used to state override precedence). -/
def ofirst {α : Type} : Option α → Option α → Option α
  | some v, _ => some v
  | none, o => o

/-- JS `a || b` on optional numeric fields: `undefined` and `0` are falsy, so
the right operand's value (possibly `undefined`) is returned for them. -/
def jsOrNum : Option Nat → Option Nat → Option Nat
  | some n, l => if n = 0 then l else some n
  | none, l => l

/-- Property lookup on an insertion-ordered JS object represented as an
association list (first match wins; `aset` keeps positions so the first match
is always the current value). -/
def alookup {α : Type} : List (String × α) → String → Option α
  | [], _ => none
  | kv :: rest, key => if key = kv.1 then some kv.2 else alookup rest key

/-- Property assignment `o[k] = v` on an insertion-ordered JS object: update
the existing entry in place, or append a new one. -/
def aset {α : Type} : List (String × α) → String → α → List (String × α)
  | [], k, v => [(k, v)]
  | kv :: rest, k, v => if kv.1 = k then (kv.1, v) :: rest else kv :: aset rest k v

/-- `Object.assign(target, src)`: copy the entries of `src` into `target` in
order, returning the updated target. -/
def objAssign {α : Type} (target src : List (String × α)) : List (String × α) :=
  src.foldl (fun acc kv => aset acc kv.1 kv.2) target

/-- Character of one base64 digit. -/
def b64Char (n : Nat) : Char :=
  if n < 26 then Char.ofNat (65 + n)
  else if n < 52 then Char.ofNat (97 + (n - 26))
  else if n < 62 then Char.ofNat (48 + (n - 52))
  else if n = 62 then '+'
  else '/'

/-- Base64-encode a byte list, three bytes to four characters, `=`-padded. -/
def b64Chunks : List Nat → List Char
  | [] => []
  | [a] => [b64Char (a / 4), b64Char ((a % 4) * 16), '=', '=']
  | [a, b] => [b64Char (a / 4), b64Char ((a % 4) * 16 + b / 16), b64Char ((b % 16) * 4), '=']
  | a :: b :: c :: rest =>
    b64Char (a / 4) :: b64Char ((a % 4) * 16 + b / 16) ::
      b64Char ((b % 16) * 4 + c / 64) :: b64Char (c % 64) :: b64Chunks rest

/-- The JS `btoa` applied to a ticket id: base64 over the string's code units
(the entry ids the Alfresco backend returns are ASCII, where code units and
bytes coincide). -/
def btoa (s : String) : String :=
  String.mk (b64Chunks (s.data.map Char.toNat))

/-- UTF-8 bytes of one character. -/
def utf8Bytes1 (c : Char) : List Nat :=
  let n := c.toNat
  if n < 128 then [n]
  else if n < 2048 then [192 + n / 64, 128 + n % 64]
  else if n < 65536 then [224 + n / 4096, 128 + (n / 64) % 64, 128 + n % 64]
  else [240 + n / 262144, 128 + (n / 4096) % 64, 128 + (n / 64) % 64, 128 + n % 64]

/-- Bytes left unescaped by `encodeURIComponent`:
letters, digits, and `- _ . ! ~ * ' ( )`. -/
def uriUnreservedByte (n : Nat) : Bool :=
  (65 ≤ n && n ≤ 90) || (97 ≤ n && n ≤ 122) || (48 ≤ n && n ≤ 57) ||
    n == 45 || n == 95 || n == 46 || n == 33 || n == 126 ||
    n == 42 || n == 39 || n == 40 || n == 41

/-- Uppercase hexadecimal digit character. -/
def hexChar (n : Nat) : Char :=
  if n < 10 then Char.ofNat (48 + n) else Char.ofNat (55 + n)

/-- Percent-encode one byte unless it is unreserved. -/
def pctByte (n : Nat) : List Char :=
  if uriUnreservedByte n then [Char.ofNat n] else ['%', hexChar (n / 16), hexChar (n % 16)]

/-- The JS `encodeURIComponent`, modelled over UTF-8 bytes. -/
def encodeURIComponent (s : String) : String :=
  String.mk (((s.data.map utf8Bytes1).flatten.map pctByte).flatten)

/-! ### Node `path.posix` (imported as `path from 'path/posix'` in both files) -/

/-- Split a character list into `/`-separated segments (as strings). -/
def splitSlash : List Char → List String
  | [] => [""]
  | c :: rest =>
    match splitSlash rest with
    | [] => []
    | s :: ss => if c = '/' then "" :: s :: ss else String.mk (c :: s.data) :: ss

/-- Join segments with `/` (no normalization). -/
def joinSlash : List String → String
  | [] => ""
  | [s] => s
  | s :: rest => s ++ "/" ++ joinSlash rest

/-- Core of Node's `normalizeString`: drop empty and `.` segments, resolve
`..` against the accumulated stack (keeping `..` runs when `allowAboveRoot`,
i.e. for relative paths). The accumulator holds processed segments reversed. -/
def normStack (allowAboveRoot : Bool) : List String → List String → List String
  | acc, [] => acc.reverse
  | acc, seg :: rest =>
    if seg = "" ∨ seg = "." then normStack allowAboveRoot acc rest
    else if seg = ".." then
      match acc with
      | [] =>
        if allowAboveRoot then normStack allowAboveRoot [".."] rest
        else normStack allowAboveRoot [] rest
      | top :: tl =>
        if top = ".." then normStack allowAboveRoot (".." :: top :: tl) rest
        else normStack allowAboveRoot tl rest
    else normStack allowAboveRoot (seg :: acc) rest

/-- Does the character list start with `/`? -/
def headIsSlash : List Char → Bool
  | c :: _ => c == '/'
  | [] => false

/-- Does the character list end with `/`? -/
def lastIsSlash (l : List Char) : Bool :=
  match l.getLast? with
  | some c => c == '/'
  | none => false

/-- Node `path.posix.normalize`: resolve `.`/`..`, collapse duplicate
separators, preserve absoluteness and a trailing separator. -/
def posixNormalize (p : String) : String :=
  if p = "" then "." else
  let isAbs := headIsSlash p.data
  let trailing := lastIsSlash p.data
  let body := joinSlash (normStack (!isAbs) [] (splitSlash p.data))
  if body = "" then (if isAbs then "/" else if trailing then "./" else ".")
  else (if isAbs then "/" else "") ++ body ++ (if trailing then "/" else "")

/-- Is the string nonempty? (Node's `join` skips zero-length parts.) -/
def nonEmptyStr (s : String) : Bool :=
  match s.data with
  | [] => false
  | _ => true

/-- Node `path.posix.join`: drop empty parts, join with `/`, normalize;
`"."` when nothing remains. -/
def pathJoin (parts : List String) : String :=
  match parts.filter nonEmptyStr with
  | [] => "."
  | l => posixNormalize (joinSlash l)

/-! ### HTTP request model -/

/-- Whole-file write payload as seen by `GitlabClient.write`: only the JS
`size` and `length` properties of the supplied data are consulted
(`data.size || data.length`); either may be absent depending on the payload
kind (Blob-likes carry `size`, strings carry `length`, some payloads
neither). -/
structure Payload where
  size : Option Nat
  length : Option Nat
deriving DecidableEq

/-- Request bodies the adapters construct (kept structured, not serialized). -/
inductive ReqBody where
  | gitlabWriteForm (content : Payload) (commitMessage : String) (branch : String)
  | authJson (userId : String) (password : String)
deriving DecidableEq

/-- One `fetch` invocation: URL, optional method (GET when absent), optional
body, headers. -/
structure Req where
  url : String
  method : Option String
  body : Option ReqBody
  headers : List (String × String)
deriving DecidableEq

/-- Response surface the GitLab adapter consumes: status and headers. -/
structure HttpResp where
  status : Nat
  headers : List (String × String)
deriving DecidableEq

/-! ### GitLab adapter (src/gitlab/index.ts) -/

/-- `GitlabOptions` (`S3Options` plus `project_id`/`branch`), as the merged
per-call configuration produced by `#cloneOptions`; the merging mechanics
themselves are modelled separately on heap objects for the frame-property
claims. -/
structure GOpts where
  endpoint : String
  accessKeyId : String
  secretAccessKey : String
  bucket : String
  project_id : String
  branch : String
  inline : Option Bool
deriving DecidableEq

/-- `API_VERSION` from src/gitlab/index.ts. -/
def API_VERSION : String := "v4"

/-- `buildURI(uri, opts)`. -/
def buildURI (uri : String) (opts : GOpts) : String :=
  pathJoin [opts.endpoint, "api", API_VERSION, "projects", opts.project_id,
      "repository/files", uri]
    ++ "?ref=" ++ opts.branch

/-- The `request` helper of the GitLab adapter: a fetch against `buildURI`
with the PRIVATE-TOKEN header (explicit headers spread after it). -/
def gitlabRequest (uri : String) (opts : GOpts) (method : Option String)
    (body : Option ReqBody) (headers : List (String × String)) : Req :=
  { url := buildURI uri opts, method := method, body := body,
    headers := objAssign [("PRIVATE-TOKEN", opts.secretAccessKey)] headers }

/-- Metadata object `GitlabClient.stat` resolves with: the collected
`x-gitlab` header entries keyed by `name.slice(9)`, with the `size` entry
overwritten by `Number(data.size)`. -/
structure GStats where
  data : List (String × String)
  size : JsNum
deriving DecidableEq

/-- `stat.type` on the GitLab metadata object. -/
def GStats.type (s : GStats) : Option String := alookup s.data "type"

/-- `stat.name` on the GitLab metadata object. -/
def GStats.name (s : GStats) : Option String := alookup s.data "name"

/-- `name.startsWith('x-gitlab')` on a (lowercase) header name. -/
def isXGitlabHeader (s : String) : Bool :=
  match s.data with
  | 'x' :: '-' :: 'g' :: 'i' :: 't' :: 'l' :: 'a' :: 'b' :: _ => true
  | _ => false

/-- `name.slice(9)`. -/
def strDrop9 (s : String) : String := String.mk (s.data.drop 9)

/-- `GitlabClient.stat`: HEAD request; collect the `x-gitlab` headers into a
fresh object, then coerce its `size` with `Number`. -/
def GitlabClient.stat (oracle : Req → Except JsErr HttpResp) (p : String) (opts : GOpts) :
    Except JsErr GStats × List Req :=
  let req := gitlabRequest (encodeURIComponent p) opts (some "HEAD") none []
  match oracle req with
  | .error e => (.error e, [req])
  | .ok res =>
    let data := res.headers.foldl
      (fun acc h => if isXGitlabHeader h.1 then aset acc (strDrop9 h.1) h.2 else acc) []
    (.ok { data := data, size := jsNumber (alookup data "size") }, [req])

/-- `.then(stat => Boolean(stat.type)).catch(() => false)` applied to a
settled stat promise. -/
def existsOfGStat : Except JsErr GStats → Except JsErr Bool
  | .ok s => .ok (truthyOptStr s.type)
  | .error _ => .ok false

/-- `GitlabClient.exists`. -/
def GitlabClient.existsOp (oracle : Req → Except JsErr HttpResp) (p : String) (opts : GOpts) :
    Except JsErr Bool × List Req :=
  (existsOfGStat (GitlabClient.stat oracle p opts).1, (GitlabClient.stat oracle p opts).2)

/-- `.then(stat => stat.size)` applied to a settled stat promise. -/
def sizeOfGStat : Except JsErr GStats → Except JsErr JsNum
  | .ok s => .ok s.size
  | .error e => .error e

/-- `GitlabClient.size`. -/
def GitlabClient.size (oracle : Req → Except JsErr HttpResp) (p : String) (opts : GOpts) :
    Except JsErr JsNum × List Req :=
  (sizeOfGStat (GitlabClient.stat oracle p opts).1, (GitlabClient.stat oracle p opts).2)

/-- `'' + Boolean(options.inline)`: the string a JS boolean concatenates to;
an absent `inline` is falsy. -/
def jsBoolStr (b : Option Bool) : String :=
  match b with
  | some true => "true"
  | _ => "false"

/-- `GitlabClient.presign`: a synchronously computed string; the second
component is the (empty) list of fetch calls its body performs. -/
def GitlabClient.presign (opts : GOpts) (file_path : String) : String × List Req :=
  (pathJoin [opts.endpoint, opts.bucket, "-/raw", opts.branch, file_path]
      ++ "?inline=" ++ jsBoolStr opts.inline, [])

/-- `GitlabClient.write`: POST the multipart body (`content`, the fixed
commit message, `branch`); on a 201 response resolve with
`data.size || data.length`; on any other status the `.then` callback falls
through and the promise resolves with `undefined` (`none`). -/
def GitlabClient.write (oracle : Req → Except JsErr HttpResp) (file_path : String)
    (data : Payload) (opts : GOpts) : Except JsErr (Option Nat) × List Req :=
  let req := gitlabRequest (encodeURIComponent file_path) opts (some "POST")
    (some (.gitlabWriteForm data "Uploaded a file" opts.branch)) []
  match oracle req with
  | .error e => (.error e, [req])
  | .ok res => (.ok (if res.status = 201 then jsOrNum data.size data.length else none), [req])

/-- `GitlabClient.delete`: the template literal argument interpolates
`NODE_ID`, an identifier bound nowhere in src/gitlab/index.ts; evaluating it
throws a `ReferenceError` before `#cloneOptions` or `request` can run, so the
call rejects without issuing any request. -/
def GitlabClient.delete (_p : String) (_opts : GOpts) : Except JsErr Unit × List Req :=
  (.error .referenceError, [])

/-- Mutable fields of a `GitlabFile` handle touched by `stat`: the `#stat`
cache and the `name` property captured on first resolution. -/
structure GFileState where
  statCache : Option GStats
  name : Option String
deriving DecidableEq

/-- `GitlabFile.stat`: `this.#stat || this.#client.stat(...)` — a populated
cache is a JS object, hence truthy, and is returned as-is with no request;
otherwise the client stat runs and its result is captured in `#stat` and
`name` before being returned. -/
def GitlabFile.stat (oracle : Req → Except JsErr HttpResp) (p : String) (opts : GOpts)
    (fs : GFileState) : Except JsErr GStats × GFileState × List Req :=
  match fs.statCache with
  | some s => (.ok s, fs, [])
  | none =>
    match GitlabClient.stat oracle p opts with
    | (.ok s, log) => (.ok s, { statCache := some s, name := s.name }, log)
    | (.error e, log) => (.error e, fs, log)

/-! ### Alfresco adapter (the unnamed source file) -/

/-- `AlfrescoOptions = S3Options`, as the merged per-call configuration. -/
structure AOpts where
  endpoint : String
  accessKeyId : String
  secretAccessKey : String
  bucket : String
deriving DecidableEq

/-- The shared mutable ticket slot `#ticket`: initially an empty object (no
`id` property); `getTicket` stores the encoded entry id into `id`. -/
structure Ticket where
  id : Option String
deriving DecidableEq

/-- `data.entry` of the authentication response. -/
structure AuthEntry where
  id : String
deriving DecidableEq

/-- JSON shape of the ticket-creation response consumed by `createTicket`. -/
structure AuthJson where
  entry : AuthEntry
deriving DecidableEq

/-- `buildUrl(path, opts)`. -/
def alfBuildUrl (p : String) (opts : AOpts) : String :=
  opts.endpoint ++ "/alfresco/api/-default-/public" ++ p

/-- `buildPath(file_path, opts)` (the `dirname = true` variant is used only
by `write`, which no claim exercises). -/
def alfBuildPath (file_path : String) (opts : AOpts) : String :=
  pathJoin [opts.bucket, file_path]

/-- The authentication request `createTicket` performs. -/
def authTicketReq (opts : AOpts) : Req :=
  { url := alfBuildUrl "/authentication/versions/1/tickets" opts,
    method := some "POST",
    body := some (.authJson opts.accessKeyId opts.secretAccessKey),
    headers := [("content-type", "application/json")] }

/-- `createTicket(opts)`: POST the credentials, then `btoa(data.entry.id)`. -/
def createTicket (authO : Req → Except JsErr AuthJson) (opts : AOpts) :
    Except JsErr String × List Req :=
  (match authO (authTicketReq opts) with
    | .ok j => .ok (btoa j.entry.id)
    | .error e => .error e,
   [authTicketReq opts])

/-- `getTicket(ticket, opts)`:
`ticket.id || createTicket(opts).then(id => ticket.id = id)`.
The cache check is JS truthiness, so an absent or empty `id` re-fetches; on a
rejected `createTicket` the slot is left untouched. -/
def getTicket (authO : Req → Except JsErr AuthJson) (t : Ticket) (opts : AOpts) :
    Except JsErr String × Ticket × List Req :=
  match t.id with
  | some v =>
    if v = "" then
      match createTicket authO opts with
      | (.ok i, log) => (.ok i, { id := some i }, log)
      | (.error e, log) => (.error e, t, log)
    else (.ok v, t, [])
  | none =>
    match createTicket authO opts with
    | (.ok i, log) => (.ok i, { id := some i }, log)
    | (.error e, log) => (.error e, t, log)

/-- The fetch the Alfresco `request` helper performs once a ticket string is
available: versioned URL plus a Basic-Authorization header (explicit headers
spread after it). -/
def alfRequest (opts : AOpts) (tk : String) (url : String) (method : Option String)
    (body : Option ReqBody) (headers : List (String × String)) : Req :=
  { url := alfBuildUrl ("/alfresco/versions/1" ++ url) opts,
    method := method, body := body,
    headers := objAssign [("Authorization", "Basic " ++ tk)] headers }

/-- `entry.content` of the node-lookup response: the fields the adapter reads
(`length`, `modifiedAt`) and deletes (`sizeInBytes`, `mimeType`). -/
structure AlfContent where
  length : Option Nat
  sizeInBytes : Option Nat
  mimeType : Option String
  modifiedAt : Option String
deriving DecidableEq

/-- `data.entry` of the node-lookup response. -/
structure AlfEntry where
  id : Option String
  nodeType : Option String
  content : AlfContent
  modifiedAt : Option String
deriving DecidableEq

/-- `data.error` of the node-lookup response (only `briefSummary` is read). -/
structure AlfError where
  briefSummary : String
deriving DecidableEq

/-- JSON shape of the node-lookup response. -/
structure AlfStatJson where
  error : Option AlfError
  entry : Option AlfEntry
deriving DecidableEq

/-- The normalized metadata object `AlfrescoClient.stat` resolves with: the
entry after the in-place mutations (`type`, `size`, `lastModified` added;
`content.sizeInBytes`, `content.mimeType` and the top-level `modifiedAt`
deleted). `new Date(x)` is modelled as carrying its argument. -/
structure AlfStats where
  id : Option String
  nodeType : Option String
  type : Option String
  size : Option Nat
  lastModified : Option String
  content : AlfContent
  modifiedAt : Option String
deriving DecidableEq

/-- The mutation block of `AlfrescoClient.stat` applied to `data.entry`. -/
def alfNormalize (e : AlfEntry) : AlfStats :=
  { id := e.id,
    nodeType := e.nodeType,
    type := e.nodeType,
    size := e.content.length,
    lastModified := e.content.modifiedAt,
    content := { e.content with sizeInBytes := none, mimeType := none },
    modifiedAt := none }

/-- `AlfrescoClient.stat`: acquire or reuse the ticket, GET the node by
relative path, reject with `briefSummary` on an error payload, otherwise
normalize the entry in place. A non-error response without `entry` makes the
callback throw (`data.type = data.nodeType` on `undefined`). -/
def AlfrescoClient.stat (authO : Req → Except JsErr AuthJson)
    (statO : Req → Except JsErr AlfStatJson) (p : String) (opts : AOpts) (t : Ticket) :
    Except JsErr AlfStats × Ticket × List Req :=
  match getTicket authO t opts with
  | (.error e, t', log) => (.error e, t', log)
  | (.ok tk, t', log) =>
    let req := alfRequest opts tk ("/nodes/-my-?relativePath=" ++ alfBuildPath p opts)
      none none []
    match statO req with
    | .error e => (.error e, t', log ++ [req])
    | .ok j =>
      match j.error with
      | some err => (.error (.reject err.briefSummary), t', log ++ [req])
      | none =>
        match j.entry with
        | none => (.error .typeError, t', log ++ [req])
        | some e => (.ok (alfNormalize e), t', log ++ [req])

/-- `.then(stat => Boolean(stat.type)).catch(() => false)` applied to a
settled Alfresco stat promise. -/
def existsOfAStat : Except JsErr AlfStats → Except JsErr Bool
  | .ok s => .ok (truthyOptStr s.type)
  | .error _ => .ok false

/-- `AlfrescoClient.exists`. -/
def AlfrescoClient.existsOp (authO : Req → Except JsErr AuthJson)
    (statO : Req → Except JsErr AlfStatJson) (p : String) (opts : AOpts) (t : Ticket) :
    Except JsErr Bool × Ticket × List Req :=
  let r := AlfrescoClient.stat authO statO p opts t
  (existsOfAStat r.1, r.2)

/-- `.then(stat => stat.size)` applied to a settled Alfresco stat promise. -/
def sizeOfAStat : Except JsErr AlfStats → Except JsErr (Option Nat)
  | .ok s => .ok s.size
  | .error e => .error e

/-- `AlfrescoClient.size`. -/
def AlfrescoClient.size (authO : Req → Except JsErr AuthJson)
    (statO : Req → Except JsErr AlfStatJson) (p : String) (opts : AOpts) (t : Ticket) :
    Except JsErr (Option Nat) × Ticket × List Req :=
  let r := AlfrescoClient.stat authO statO p opts t
  (sizeOfAStat r.1, r.2)

/-- `AlfrescoClient.delete`: an authenticated DELETE to `/nodes/` plus the
given name; `.then(() => \x7b\x7d)` resolves with no value whenever the
fetch resolves. -/
def AlfrescoClient.delete (authO : Req → Except JsErr AuthJson)
    (delO : Req → Except JsErr Unit) (p : String) (opts : AOpts) (t : Ticket) :
    Except JsErr Unit × Ticket × List Req :=
  match getTicket authO t opts with
  | (.error e, t', log) => (.error e, t', log)
  | (.ok tk, t', log) =>
    let req := alfRequest opts tk ("/nodes/" ++ p) (some "DELETE") none []
    match delO req with
    | .error e => (.error e, t', log ++ [req])
    | .ok _ => (.ok (), t', log ++ [req])

/-- Mutable fields of an `AlfrescoFile` handle touched by `stat`: the `#stat`
cache and the `#id` captured on first resolution. -/
structure AFileState where
  statCache : Option AlfStats
  id : Option String
deriving DecidableEq

/-- `AlfrescoFile.stat`: `this.#stat || this.#client.stat(...)` with `#id`
captured before caching; the ticket slot is the client's, shared by reference
(the constructor receives `this.#ticket`). -/
def AlfrescoFile.stat (authO : Req → Except JsErr AuthJson)
    (statO : Req → Except JsErr AlfStatJson) (p : String) (opts : AOpts) (t : Ticket)
    (fs : AFileState) : Except JsErr AlfStats × Ticket × AFileState × List Req :=
  match fs.statCache with
  | some s => (.ok s, t, fs, [])
  | none =>
    match AlfrescoClient.stat authO statO p opts t with
    | (.ok s, t', log) => (.ok s, t', { statCache := some s, id := s.id }, log)
    | (.error e, t', log) => (.error e, t', fs, log)

/-- One authenticated request issued sequentially by the client or by any
file handle sharing its ticket slot: every such request funnels through
`getTicket` on the shared slot. Returns the updated slot and the number of
authentication-endpoint calls this request caused. -/
def authedStep (authO : Req → Except JsErr AuthJson) (opts : AOpts) (t : Ticket) :
    Ticket × Nat :=
  match getTicket authO t opts with
  | (_, t', log) => (t', (log.filter (fun r => r.url == (authTicketReq opts).url)).length)

/-- `n` sequential authenticated requests against the shared ticket slot,
returning the final slot and the total number of authentication calls. -/
def authedSeq (authO : Req → Except JsErr AuthJson) (opts : AOpts) : Ticket → Nat → Ticket × Nat
  | t, 0 => (t, 0)
  | t, n + 1 =>
    let s := authedStep authO opts t
    let r := authedSeq authO opts s.1 n
    (r.1, s.2 + r.2)

/-! ### Heap model of option objects (frame-property claims) -/

/-- JS values stored in option objects. -/
inductive JsVal where
  | undefined
  | str (s : String)
  | num (n : Int)
  | boolean (b : Bool)
  | ref (r : Nat)
deriving DecidableEq

/-- A JS object: insertion-ordered properties. -/
abbrev Obj := List (String × JsVal)

/-- A heap of objects; references are list indices. -/
abbrev Heap := List Obj

/-- Dereference (an absent reference gives the empty object; unreachable for
the references the modelled programs create). -/
def heapGet : Heap → Nat → Obj
  | [], _ => []
  | o :: _, 0 => o
  | _ :: rest, n + 1 => heapGet rest n

/-- Allocate a fresh object, returning the heap and the new reference. -/
def heapAlloc (h : Heap) (o : Obj) : Heap × Nat := (h ++ [o], h.length)

/-- Overwrite the object at a reference. -/
def heapSet : Heap → Nat → Obj → Heap
  | [], _, _ => []
  | _ :: rest, 0, o => o :: rest
  | x :: rest, n + 1, o => x :: heapSet rest n o

/-- Fold `Object.assign(opts, arg)` over the rest-parameter list (an
`undefined` argument is a no-op for `Object.assign`). -/
def assignArgs (start : Obj) : List (Option Obj) → Obj
  | [] => start
  | none :: rest => assignArgs start rest
  | some a :: rest => assignArgs (objAssign start a) rest

/-- `GitlabClient.#cloneOptions(...args)`: `Object.assign({}, this.#opts)`
then assign each argument in turn, yielding a freshly allocated object. -/
def GitlabClient.cloneOptions (h : Heap) (baseRef : Nat) (args : List (Option Obj)) :
    Heap × Nat :=
  heapAlloc h (assignArgs (objAssign [] (heapGet h baseRef)) args)

/-- `AlfrescoClient.#cloneOptions(...args)`:
`Object.assign({}, this.#opts, {ticket: this.#ticket})` then assign each
argument in turn, yielding a freshly allocated object. -/
def AlfrescoClient.cloneOptions (h : Heap) (baseRef : Nat) (ticketRef : Nat)
    (args : List (Option Obj)) : Heap × Nat :=
  heapAlloc h
    (assignArgs (objAssign (objAssign [] (heapGet h baseRef)) [("ticket", .ref ticketRef)]) args)

/-- The `path` member of a file handle: a string, or — after `slice` — the
previous handle object itself, which the source passes where a path string is
expected. -/
inductive PathVal where
  | str (s : String)
  | handleObj
deriving DecidableEq

/-- The reference cells of a file handle relevant to `slice`: its path value
and the reference to its `#options` object. -/
structure FileRefs where
  path : PathVal
  optRef : Nat
deriving DecidableEq

/-- A slice bound as stored (`undefined` when not supplied). -/
def jsOfNum : Option Int → JsVal
  | some n => .num n
  | none => .undefined

/-- A `contentType` as stored (`undefined` when not supplied). -/
def jsOfStr : Option String → JsVal
  | some s => .str s
  | none => .undefined

/-- `GitlabFile.slice(start, end, contentType)`: writes the three keys into
the receiver's existing `#options` object in place (three successive property
assignments on the same reference, composed here into one heap write), then
constructs `new GitlabFile(this, this.#options, this.#client)` — the same
options reference, with the old handle itself as the `path` argument. -/
def GitlabFile.slice (h : Heap) (f : FileRefs) (start end_ : Option Int)
    (contentType : Option String) : Heap × FileRefs :=
  let o := heapGet h f.optRef
  let o := aset o "sliceStart" (jsOfNum start)
  let o := aset o "sliceEnd" (jsOfNum end_)
  let o := aset o "sliceContentType" (jsOfStr contentType)
  (heapSet h f.optRef o, { path := .handleObj, optRef := f.optRef })

/-- `AlfrescoFile.slice(start, end, contentType)`: the identical mutation;
the new handle is
`new AlfrescoFile(this, this.#ticket, this.#options, this.#client)` — the
same ticket slot and the same options reference. -/
def AlfrescoFile.slice (h : Heap) (f : FileRefs) (start end_ : Option Int)
    (contentType : Option String) : Heap × FileRefs :=
  let o := heapGet h f.optRef
  let o := aset o "sliceStart" (jsOfNum start)
  let o := aset o "sliceEnd" (jsOfNum end_)
  let o := aset o "sliceContentType" (jsOfStr contentType)
  (heapSet h f.optRef o, { path := .handleObj, optRef := f.optRef })

/-! ### Definitions taken from the specification's words (for comparison) -/

/-- Modelled from the spec: the exact presigned-URL shape claim C3 states —
endpoint, bucket, the literal raw-content segment, branch and path joined by
single slashes as plain text concatenation (no path normalization), followed
by the inline query flag. -/
def specPresignTemplate (opts : GOpts) (p : String) : String :=
  opts.endpoint ++ "/" ++ opts.bucket ++ "/-/raw/" ++ opts.branch ++ "/" ++ p
    ++ "?inline=" ++ jsBoolStr opts.inline

/-- Modelled from the spec: "the size of the supplied payload" — a Blob-like
payload's `size` if it has one, otherwise a string-like payload's `length`. -/
def payloadSize (p : Payload) : Option Nat :=
  match p.size with
  | some n => some n
  | none => p.length

/-! ### Concrete fixtures used by witnesses and counterexamples -/

/-- A concrete merged GitLab configuration (the README's endpoint). -/
def gopts0 : GOpts :=
  { endpoint := "http://localhost:9000", accessKeyId := "user", secretAccessKey := "tok",
    bucket := "b", project_id := "7", branch := "main", inline := none }

/-- A concrete merged Alfresco configuration. -/
def aopts0 : AOpts :=
  { endpoint := "http://localhost:9000", accessKeyId := "user",
    secretAccessKey := "pw", bucket := "b" }

/-- GitLab oracle responding to every request with blob metadata headers of
size zero. -/
def gOracle0 : Req → Except JsErr HttpResp :=
  fun _ => .ok
    { status := 200,
      headers := [("x-gitlab-type", "blob"), ("x-gitlab-size", "0"), ("x-gitlab-name", "a")] }

/-- GitLab oracle rejecting every request at the transport level. -/
def gOracleErr : Req → Except JsErr HttpResp := fun _ => .error .transport

/-- GitLab oracle answering 201 to every request. -/
def gOracle201 : Req → Except JsErr HttpResp := fun _ => .ok { status := 201, headers := [] }

/-- GitLab oracle answering 400 to every request. -/
def gOracle400 : Req → Except JsErr HttpResp := fun _ => .ok { status := 400, headers := [] }

/-- A zero-size Blob payload (`new Blob([])`: `size` is 0, no `length`). -/
def payload0 : Payload := { size := some 0, length := none }

/-- Alfresco auth oracle whose ticket entry id is "abc". -/
def authOracle0 : Req → Except JsErr AuthJson := fun _ => .ok { entry := { id := "abc" } }

/-- Alfresco auth oracle whose ticket entry id is the empty string. -/
def authOracleEmpty : Req → Except JsErr AuthJson := fun _ => .ok { entry := { id := "" } }

/-- A concrete node-lookup entry. -/
def alfEntry0 : AlfEntry :=
  { id := some "n1", nodeType := some "cm:content",
    content := { length := some 12, sizeInBytes := some 12,
                 mimeType := some "text/plain", modifiedAt := some "2024-01-01" },
    modifiedAt := some "2024-01-01" }

/-- Alfresco stat oracle: a non-error response carrying `alfEntry0`. -/
def statOracle0 : Req → Except JsErr AlfStatJson :=
  fun _ => .ok { error := none, entry := some alfEntry0 }

/-- A concrete zero-byte node-lookup entry. -/
def alfEntryZero : AlfEntry :=
  { id := some "n0", nodeType := some "cm:content",
    content := { length := some 0, sizeInBytes := some 0,
                 mimeType := some "text/plain", modifiedAt := some "2024-01-01" },
    modifiedAt := some "2024-01-01" }

/-- Alfresco stat oracle: a non-error response with the zero-byte entry. -/
def statOracleZero : Req → Except JsErr AlfStatJson :=
  fun _ => .ok { error := none, entry := some alfEntryZero }

/-- Alfresco stat oracle: an error payload. -/
def statOracleErr : Req → Except JsErr AlfStatJson :=
  fun _ => .ok { error := some { briefSummary := "not found" }, entry := none }

/-- Alfresco delete oracle: every fetch resolves. -/
def delOracle0 : Req → Except JsErr Unit := fun _ => .ok ()

/-- A concrete GitLab metadata object: what `stat` collects from `gOracle0`. -/
def gstats0 : GStats :=
  { data := [("type", "blob"), ("size", "0"), ("name", "a")], size := .num 0 }

/-- A concrete normalized Alfresco metadata object. -/
def astats0 : AlfStats := alfNormalize alfEntry0

/-! ### Helper lemmas -/

theorem ofirst_none_right {α : Type} (o : Option α) : ofirst o none = o := by
  cases o <;> rfl

theorem alookup_aset {α : Type} (t : List (String × α)) (k key : String) (v : α) :
    alookup (aset t k v) key = if key = k then some v else alookup t key := by
  induction t with
  | nil => simp [aset, alookup]
  | cons kv rest ih =>
    by_cases h1 : kv.1 = k
    · rw [show aset (kv :: rest) k v = (kv.1, v) :: rest by simp [aset, h1]]
      by_cases h2 : key = kv.1
      · simp [alookup, h2, h2.trans h1, h1]
      · have hk : key ≠ k := h1 ▸ h2
        simp [alookup, h2, hk]
    · rw [show aset (kv :: rest) k v = kv :: aset rest k v by simp [aset, h1]]
      by_cases h2 : key = kv.1
      · have hk : key ≠ k := fun hh => h1 (h2 ▸ hh)
        simp [alookup, h2, hk, h1]
      · simp [alookup, h2, ih]

theorem alookup_append {α : Type} (xs ys : List (String × α)) (key : String) :
    alookup (xs ++ ys) key = ofirst (alookup xs key) (alookup ys key) := by
  induction xs with
  | nil => simp [alookup, ofirst]
  | cons kv rest ih =>
    by_cases h : key = kv.1
    · simp [alookup, h, ofirst]
    · simp [alookup, h, ih]

theorem alookup_objAssign {α : Type} (src : List (String × α)) :
    ∀ (t : List (String × α)) (key : String),
      alookup (objAssign t src) key = ofirst (alookup src.reverse key) (alookup t key) := by
  induction src with
  | nil =>
    intro t key
    simp [objAssign, alookup, ofirst]
  | cons kv rest ih =>
    intro t key
    have h1 : objAssign t (kv :: rest) = objAssign (aset t kv.1 kv.2) rest := rfl
    rw [h1, ih, List.reverse_cons, alookup_append, alookup_aset]
    cases hx : alookup rest.reverse key with
    | some v => simp [ofirst]
    | none =>
      by_cases h : key = kv.1 <;> simp [alookup, h, ofirst]

/-- The property keys of an object, in order. -/
def objKeys {α : Type} (o : List (String × α)) : List String := o.map Prod.fst

theorem alookup_eq_none {α : Type} (o : List (String × α)) (key : String)
    (h : key ∉ objKeys o) : alookup o key = none := by
  induction o with
  | nil => rfl
  | cons kv rest ih =>
    rw [show objKeys (kv :: rest) = kv.1 :: objKeys rest from rfl] at h
    simp only [List.mem_cons, not_or] at h
    simp [alookup, h.1, ih h.2]

theorem alookup_reverse_of_nodup {α : Type} (o : List (String × α))
    (h : (objKeys o).Nodup) (key : String) :
    alookup o.reverse key = alookup o key := by
  induction o with
  | nil => rfl
  | cons kv rest ih =>
    rw [show objKeys (kv :: rest) = kv.1 :: objKeys rest from rfl] at h
    have h1 : kv.1 ∉ objKeys rest := (List.nodup_cons.mp h).1
    have h2 : (objKeys rest).Nodup := (List.nodup_cons.mp h).2
    rw [List.reverse_cons, alookup_append]
    by_cases hk : key = kv.1
    · subst hk
      have hnone : alookup rest.reverse kv.1 = none := by
        apply alookup_eq_none
        intro hmem
        apply h1
        have hkr : objKeys (rest.reverse) = (objKeys rest).reverse := by
          simp [objKeys]
        rw [hkr, List.mem_reverse] at hmem
        exact hmem
      simp [hnone, ofirst, alookup]
    · rw [ih h2]
      simp [alookup, hk, ofirst_none_right]

theorem heapGet_append_lt (h h2 : Heap) (i : Nat) (hi : i < h.length) :
    heapGet (h ++ h2) i = heapGet h i := by
  induction h generalizing i with
  | nil => cases hi
  | cons o rest ih =>
    cases i with
    | zero => rfl
    | succ n => exact ih n (Nat.lt_of_succ_lt_succ hi)

theorem heapGet_append_self (h : Heap) (o : Obj) :
    heapGet (h ++ [o]) h.length = o := by
  induction h with
  | nil => rfl
  | cons x rest ih => exact ih

theorem heapGet_heapSet_self (h : Heap) (r : Nat) (o : Obj) (hr : r < h.length) :
    heapGet (heapSet h r o) r = o := by
  induction h generalizing r with
  | nil => cases hr
  | cons x rest ih =>
    cases r with
    | zero => rfl
    | succ n => exact ih n (Nat.lt_of_succ_lt_succ hr)

theorem heapGet_heapSet_ne (h : Heap) (r r' : Nat) (o : Obj) (hne : r' ≠ r) :
    heapGet (heapSet h r o) r' = heapGet h r' := by
  induction h generalizing r r' with
  | nil => rfl
  | cons x rest ih =>
    cases r with
    | zero =>
      cases r' with
      | zero => exact absurd rfl hne
      | succ m => rfl
    | succ n =>
      cases r' with
      | zero => rfl
      | succ m => exact ih n m (fun hh => hne (by rw [hh]))

/-! ### Claim C1 -/

/-- C1: on both backend clients, `exists(path, options)` resolves to `true`
iff `stat(path, options)` resolves with a metadata object whose `type` field
is truthy; it resolves to `false` whenever `stat` rejects, and it never
rejects. -/
theorem claim_C1_exists_iff_stat_type
    (gO : Req → Except JsErr HttpResp) (p : String) (gopts : GOpts)
    (authO : Req → Except JsErr AuthJson) (statO : Req → Except JsErr AlfStatJson)
    (q : String) (aopts : AOpts) (t : Ticket) :
    ((GitlabClient.existsOp gO p gopts).1 = .ok true ↔
      ∃ s, (GitlabClient.stat gO p gopts).1 = .ok s ∧ truthyOptStr s.type = true) ∧
    (∀ e, (GitlabClient.stat gO p gopts).1 = .error e →
      (GitlabClient.existsOp gO p gopts).1 = .ok false) ∧
    (∃ b, (GitlabClient.existsOp gO p gopts).1 = .ok b) ∧
    ((AlfrescoClient.existsOp authO statO q aopts t).1 = .ok true ↔
      ∃ s, (AlfrescoClient.stat authO statO q aopts t).1 = .ok s ∧
        truthyOptStr s.type = true) ∧
    (∀ e, (AlfrescoClient.stat authO statO q aopts t).1 = .error e →
      (AlfrescoClient.existsOp authO statO q aopts t).1 = .ok false) ∧
    (∃ b, (AlfrescoClient.existsOp authO statO q aopts t).1 = .ok b) := by
  have hg : (GitlabClient.existsOp gO p gopts).1
      = existsOfGStat (GitlabClient.stat gO p gopts).1 := rfl
  have ha : (AlfrescoClient.existsOp authO statO q aopts t).1
      = existsOfAStat (AlfrescoClient.stat authO statO q aopts t).1 := rfl
  refine ⟨?_, ?_, ?_, ?_, ?_, ?_⟩
  · rw [hg]
    cases hs : (GitlabClient.stat gO p gopts).1 with
    | error e => simp [existsOfGStat]
    | ok s => simp [existsOfGStat]
  · intro e he
    rw [hg, he]
    rfl
  · rw [hg]
    cases hs : (GitlabClient.stat gO p gopts).1 with
    | error e => exact ⟨false, rfl⟩
    | ok s => exact ⟨truthyOptStr s.type, rfl⟩
  · rw [ha]
    cases hs : (AlfrescoClient.stat authO statO q aopts t).1 with
    | error e => simp [existsOfAStat]
    | ok s => simp [existsOfAStat]
  · intro e he
    rw [ha, he]
    rfl
  · rw [ha]
    cases hs : (AlfrescoClient.stat authO statO q aopts t).1 with
    | error e => exact ⟨false, rfl⟩
    | ok s => exact ⟨truthyOptStr s.type, rfl⟩

/-- C1 witness: concrete oracles exercising the truthy-type and the
rejection branches on both backends. -/
theorem claim_C1_witness :
    (GitlabClient.existsOp gOracle0 "a.txt" gopts0).1 = .ok true ∧
    (GitlabClient.existsOp gOracleErr "a.txt" gopts0).1 = .ok false ∧
    (AlfrescoClient.existsOp authOracle0 statOracle0 "123.json" aopts0 ⟨none⟩).1 = .ok true ∧
    (AlfrescoClient.existsOp authOracle0 statOracleErr "123.json" aopts0 ⟨none⟩).1
      = .ok false := by
  refine ⟨?_, ?_, ?_, ?_⟩
  · exact (claim_C1_exists_iff_stat_type gOracle0 "a.txt" gopts0 authOracle0 statOracle0
      "123.json" aopts0 ⟨none⟩).1.mpr ⟨gstats0, rfl, by decide⟩
  · exact (claim_C1_exists_iff_stat_type gOracleErr "a.txt" gopts0 authOracle0 statOracle0
      "123.json" aopts0 ⟨none⟩).2.1 .transport rfl
  · exact (claim_C1_exists_iff_stat_type gOracle0 "a.txt" gopts0 authOracle0 statOracle0
      "123.json" aopts0 ⟨none⟩).2.2.2.1.mpr ⟨astats0, rfl, by decide⟩
  · exact (claim_C1_exists_iff_stat_type gOracle0 "a.txt" gopts0 authOracle0 statOracleErr
      "123.json" aopts0 ⟨none⟩).2.2.2.2.1 (.reject "not found") rfl

/-! ### Claim C2 -/

/-- C2: on both backends, once a `stat()` call has resolved and populated the
handle's cache, every later `stat()` on that same handle returns the
identical cached metadata value, issues no backend request, and leaves all
state unchanged — whatever the oracle would now answer; and a first
successful `stat` populates the cache with exactly its result. -/
theorem claim_C2_stat_cache_stale
    (gO : Req → Except JsErr HttpResp) (p : String) (gopts : GOpts) (fs : GFileState)
    (s : GStats)
    (authO : Req → Except JsErr AuthJson) (statO : Req → Except JsErr AlfStatJson)
    (q : String) (aopts : AOpts) (t : Ticket) (afs : AFileState) (a : AlfStats) :
    (fs.statCache = some s → GitlabFile.stat gO p gopts fs = (.ok s, fs, [])) ∧
    (fs.statCache = none → ∀ s' fs' log,
      GitlabFile.stat gO p gopts fs = (.ok s', fs', log) → fs'.statCache = some s') ∧
    (afs.statCache = some a →
      AlfrescoFile.stat authO statO q aopts t afs = (.ok a, t, afs, [])) ∧
    (afs.statCache = none → ∀ s' t' afs' log,
      AlfrescoFile.stat authO statO q aopts t afs = (.ok s', t', afs', log) →
      afs'.statCache = some s') := by
  refine ⟨?_, ?_, ?_, ?_⟩
  · intro h
    simp [GitlabFile.stat, h]
  · intro h s' fs' log heq
    rw [GitlabFile.stat, h] at heq
    rcases hc : GitlabClient.stat gO p gopts with ⟨r, lg⟩
    rw [hc] at heq
    cases r with
    | error e => simp at heq
    | ok s1 =>
      simp at heq
      rw [← heq.2.1]
      simp [heq.1]
  · intro h
    simp [AlfrescoFile.stat, h]
  · intro h s' t' afs' log heq
    rw [AlfrescoFile.stat, h] at heq
    rcases hc : AlfrescoClient.stat authO statO q aopts t with ⟨r, t1, lg⟩
    rw [hc] at heq
    cases r with
    | error e => simp at heq
    | ok s1 =>
      simp at heq
      rw [← heq.2.2.1]
      simp [heq.1]

/-- C2 witness: with a populated cache both handles answer from the cache —
even against an oracle that rejects every request — and an empty cache is
populated by the first resolved stat. -/
theorem claim_C2_witness :
    GitlabFile.stat gOracleErr "a.txt" gopts0 ⟨some gstats0, some "a"⟩
      = (.ok gstats0, ⟨some gstats0, some "a"⟩, []) ∧
    AlfrescoFile.stat authOracle0 statOracleErr "123.json" aopts0 ⟨some "T"⟩
        ⟨some astats0, some "n1"⟩
      = (.ok astats0, ⟨some "T"⟩, ⟨some astats0, some "n1"⟩, []) := by
  constructor
  · exact (claim_C2_stat_cache_stale gOracleErr "a.txt" gopts0 ⟨some gstats0, some "a"⟩
      gstats0 authOracle0 statOracleErr "123.json" aopts0 ⟨some "T"⟩
      ⟨some astats0, some "n1"⟩ astats0).1 rfl
  · exact (claim_C2_stat_cache_stale gOracleErr "a.txt" gopts0 ⟨some gstats0, some "a"⟩
      gstats0 authOracle0 statOracleErr "123.json" aopts0 ⟨some "T"⟩
      ⟨some astats0, some "n1"⟩ astats0).2.2.1 rfl

/-! ### Claim C8 -/

/-- C8: on both backends, whenever `stat` resolves, `size` resolves to
exactly the `size` field of that metadata (zero-byte objects included). -/
theorem claim_C8_size_eq_stat_size
    (gO : Req → Except JsErr HttpResp) (p : String) (gopts : GOpts)
    (authO : Req → Except JsErr AuthJson) (statO : Req → Except JsErr AlfStatJson)
    (q : String) (aopts : AOpts) (t : Ticket) :
    (∀ s, (GitlabClient.stat gO p gopts).1 = .ok s →
      (GitlabClient.size gO p gopts).1 = .ok s.size) ∧
    (∀ s, (AlfrescoClient.stat authO statO q aopts t).1 = .ok s →
      (AlfrescoClient.size authO statO q aopts t).1 = .ok s.size) := by
  constructor
  · intro s hs
    show sizeOfGStat (GitlabClient.stat gO p gopts).1 = .ok s.size
    rw [hs]
    rfl
  · intro s hs
    show sizeOfAStat (AlfrescoClient.stat authO statO q aopts t).1 = .ok s.size
    rw [hs]
    rfl

/-- C8 witness: zero-byte objects on both backends. -/
theorem claim_C8_witness :
    (GitlabClient.size gOracle0 "a.txt" gopts0).1 = .ok (.num 0) ∧
    (AlfrescoClient.size authOracle0 statOracleZero "z.bin" aopts0 ⟨none⟩).1
      = .ok (some 0) := by
  constructor
  · exact (claim_C8_size_eq_stat_size gOracle0 "a.txt" gopts0 authOracle0 statOracleZero
      "z.bin" aopts0 ⟨none⟩).1 gstats0 rfl
  · exact (claim_C8_size_eq_stat_size gOracle0 "a.txt" gopts0 authOracle0 statOracleZero
      "z.bin" aopts0 ⟨none⟩).2 (alfNormalize alfEntryZero) rfl

/-! ### Claim C6 -/

/-- C6: whenever `AlfrescoClient.stat` receives a non-error response (an
error-free payload carrying an entry) — here with the ticket already cached —
it resolves with the normalized entry, whose `size` equals the raw entry's
nested `content.length`, and whose nested `sizeInBytes` and `mimeType` fields
are absent after the copy. -/
theorem claim_C6_stat_normalization
    (authO : Req → Except JsErr AuthJson) (statO : Req → Except JsErr AlfStatJson)
    (p : String) (opts : AOpts) (v : String) (e : AlfEntry)
    (hv : v ≠ "")
    (hresp : statO (alfRequest opts v ("/nodes/-my-?relativePath=" ++ alfBuildPath p opts)
      none none []) = .ok { error := none, entry := some e }) :
    (AlfrescoClient.stat authO statO p opts ⟨some v⟩).1 = .ok (alfNormalize e) ∧
    (alfNormalize e).size = e.content.length ∧
    (alfNormalize e).content.sizeInBytes = none ∧
    (alfNormalize e).content.mimeType = none := by
  refine ⟨?_, rfl, rfl, rfl⟩
  have hga : getTicket authO ⟨some v⟩ opts = (.ok v, ⟨some v⟩, []) := by
    simp [getTicket, hv]
  simp [AlfrescoClient.stat, hga, hresp]

/-- C6 witness: the concrete entry with `content.length` 12. -/
theorem claim_C6_witness :
    (AlfrescoClient.stat authOracle0 statOracle0 "123.json" aopts0 ⟨some "T"⟩).1
      = .ok (alfNormalize alfEntry0) ∧
    (alfNormalize alfEntry0).size = some 12 ∧
    (alfNormalize alfEntry0).content.sizeInBytes = none ∧
    (alfNormalize alfEntry0).content.mimeType = none := by
  have h := claim_C6_stat_normalization authOracle0 statOracle0 "123.json" aopts0 "T"
    alfEntry0 (by decide) rfl
  exact ⟨h.1, h.2.1, h.2.2.1, h.2.2.2⟩

/-! ### Claim C4 -/

/-- C4 counterexample: a zero-size Blob payload written with a 201 response.
`data.size || data.length` sees the falsy 0 and falls through to the absent
`length`, so the write resolves with `undefined` — not the payload's size —
falsifying the claim that an HTTP 201 write resolves with the size of the
supplied payload. -/
theorem claim_C4_counterexample :
    (GitlabClient.write gOracle201 "empty.bin" payload0 gopts0).1 = .ok none ∧
    payloadSize payload0 = some 0 ∧
    (GitlabClient.write gOracle201 "empty.bin" payload0 gopts0).1
      ≠ .ok (payloadSize payload0) := by
  refine ⟨rfl, rfl, ?_⟩
  intro h
  have h2 : (Except.ok none : Except JsErr (Option Nat)) = .ok (some 0) := h
  exact Option.noConfusion (Except.ok.inj h2)

/-- C4 (amended): when the backend answers the write request, an HTTP 201
response makes `write` resolve with `data.size || data.length` — which equals
the payload's size except when `data.size` is 0 (JS-falsy, so it falls
through, yielding `undefined` for a zero-size Blob) — and any other status
makes it resolve with `undefined` (no defined return value). -/
theorem claim_C4_write_amended (oracle : Req → Except JsErr HttpResp)
    (p : String) (data : Payload) (opts : GOpts) (resp : HttpResp)
    (hresp : oracle (gitlabRequest (encodeURIComponent p) opts (some "POST")
      (some (.gitlabWriteForm data "Uploaded a file" opts.branch)) []) = .ok resp) :
    (resp.status = 201 →
      (GitlabClient.write oracle p data opts).1 = .ok (jsOrNum data.size data.length)) ∧
    (resp.status ≠ 201 → (GitlabClient.write oracle p data opts).1 = .ok none) ∧
    (data.size ≠ some 0 → jsOrNum data.size data.length = payloadSize data) := by
  refine ⟨?_, ?_, ?_⟩
  · intro h201
    simp [GitlabClient.write, hresp, h201]
  · intro hne
    simp [GitlabClient.write, hresp, hne]
  · intro hsz
    cases hs : data.size with
    | none => simp [jsOrNum, payloadSize, hs]
    | some n =>
      have hn : n ≠ 0 := fun h0 => hsz (by rw [hs, h0])
      simp [jsOrNum, payloadSize, hs, hn]

/-- C4 witness: a payload of size 5 written under a 201 response resolves
with 5; under a 400 response the write resolves with `undefined`. -/
theorem claim_C4_witness :
    (GitlabClient.write gOracle201 "a.txt" { size := some 5, length := none } gopts0).1
      = .ok (some 5) ∧
    (GitlabClient.write gOracle400 "a.txt" { size := some 5, length := none } gopts0).1
      = .ok none := by
  constructor
  · exact (claim_C4_write_amended gOracle201 "a.txt" { size := some 5, length := none }
      gopts0 { status := 201, headers := [] } rfl).1 rfl
  · exact (claim_C4_write_amended gOracle400 "a.txt" { size := some 5, length := none }
      gopts0 { status := 400, headers := [] } rfl).2.1 (by decide)

/-! ### Claim C5 -/

/-- C5, evaluated at the failing input: on the GitLab backend `delete`
throws a `ReferenceError` on the unbound `NODE_ID` and issues no request at
all — in particular no DELETE for the named object — while the Alfresco
backend does issue a DELETE to the named object's endpoint and resolves with
no value. -/
theorem claim_C5_delete_behavior :
    GitlabClient.delete "a.txt" gopts0 = (.error .referenceError, []) ∧
    AlfrescoClient.delete authOracle0 delOracle0 "node-1" aopts0 ⟨some "T"⟩
      = (.ok (), ⟨some "T"⟩,
        [alfRequest aopts0 "T" "/nodes/node-1" (some "DELETE") none []]) ∧
    (alfRequest aopts0 "T" "/nodes/node-1" (some "DELETE") none []).method
      = some "DELETE" ∧
    (alfRequest aopts0 "T" "/nodes/node-1" (some "DELETE") none []).url
      = "http://localhost:9000/alfresco/api/-default-/public/alfresco/versions/1/nodes/node-1"
    := by
  exact ⟨rfl, rfl, rfl, rfl⟩

/-! ### Claim C3 -/

theorem strAppend_assoc (a b c : String) : a ++ b ++ c = a ++ (b ++ c) := by
  rcases a with ⟨la⟩
  rcases b with ⟨lb⟩
  rcases c with ⟨lc⟩
  show String.mk ((la ++ lb) ++ lc) = String.mk (la ++ (lb ++ lc))
  rw [List.append_assoc]

theorem nonEmptyStr_of_ne (s : String) (h : s ≠ "") : nonEmptyStr s = true := by
  rcases s with ⟨l⟩
  cases l with
  | nil => exact absurd rfl h
  | cons c cs => rfl

/-- C3 counterexample: with the README's endpoint, the presigned URL is the
POSIX-normalized join — the double slash of the URL scheme is collapsed — so
it is not exactly the template string the claim states (while indeed no
network call is made). -/
theorem claim_C3_counterexample :
    (GitlabClient.presign gopts0 "123.json").1
      = "http:/localhost:9000/b/-/raw/main/123.json?inline=false" ∧
    (GitlabClient.presign gopts0 "123.json").1 ≠ specPresignTemplate gopts0 "123.json" ∧
    (GitlabClient.presign gopts0 "123.json").2 = [] := by
  exact ⟨by decide, by decide, rfl⟩

/-- C3 (amended): `presign` performs no network call and returns exactly the
POSIX join of endpoint, bucket, the raw-content segment, branch and path,
followed by `?inline=` and the boolean inline flag; for nonempty components
the joined part is the POSIX *normalization* of the claimed template —
normalization collapses duplicate slashes, so an endpoint containing a scheme
separator deviates from the raw template (see the counterexample). -/
theorem claim_C3_presign_amended (opts : GOpts) (p : String)
    (he : opts.endpoint ≠ "") (hb : opts.bucket ≠ "") (hbr : opts.branch ≠ "")
    (hp : p ≠ "") :
    (GitlabClient.presign opts p).2 = [] ∧
    (GitlabClient.presign opts p).1
      = posixNormalize (opts.endpoint ++ "/" ++ opts.bucket ++ "/" ++ "-/raw" ++ "/"
          ++ opts.branch ++ "/" ++ p) ++ "?inline=" ++ jsBoolStr opts.inline := by
  refine ⟨rfl, ?_⟩
  show pathJoin [opts.endpoint, opts.bucket, "-/raw", opts.branch, p]
      ++ "?inline=" ++ jsBoolStr opts.inline = _
  have hfil : [opts.endpoint, opts.bucket, "-/raw", opts.branch, p].filter nonEmptyStr
      = [opts.endpoint, opts.bucket, "-/raw", opts.branch, p] := by
    simp [List.filter, nonEmptyStr_of_ne _ he, nonEmptyStr_of_ne _ hb,
      nonEmptyStr_of_ne _ hbr, nonEmptyStr_of_ne _ hp,
      show nonEmptyStr "-/raw" = true from rfl]
  have harg : joinSlash [opts.endpoint, opts.bucket, "-/raw", opts.branch, p]
      = opts.endpoint ++ "/" ++ opts.bucket ++ "/" ++ "-/raw" ++ "/"
          ++ opts.branch ++ "/" ++ p := by
    simp only [joinSlash, strAppend_assoc]
  rw [pathJoin, hfil]
  show posixNormalize (joinSlash [opts.endpoint, opts.bucket, "-/raw", opts.branch, p])
      ++ "?inline=" ++ jsBoolStr opts.inline
    = posixNormalize (opts.endpoint ++ "/" ++ opts.bucket ++ "/" ++ "-/raw" ++ "/"
        ++ opts.branch ++ "/" ++ p) ++ "?inline=" ++ jsBoolStr opts.inline
  rw [harg]

/-- C3 witness: the amended statement evaluated at the concrete README
configuration. -/
theorem claim_C3_witness :
    (GitlabClient.presign gopts0 "123.json").2 = [] ∧
    (GitlabClient.presign gopts0 "123.json").1
      = posixNormalize ("http://localhost:9000" ++ "/" ++ "b" ++ "/" ++ "-/raw" ++ "/"
          ++ "main" ++ "/" ++ "123.json") ++ "?inline=" ++ jsBoolStr none := by
  exact claim_C3_presign_amended gopts0 "123.json" (by decide) (by decide) (by decide)
    (by decide)

/-! ### Claim C7 -/

/-- C7 counterexample: an authentication endpoint whose entry id is the empty
string defeats the truthiness cache check of `getTicket` (`ticket.id ||`):
two sequential authenticated requests on the same client each contact the
authentication endpoint, falsifying "acquired at most once per client
lifetime". -/
theorem claim_C7_counterexample :
    (authedSeq authOracleEmpty aopts0 ⟨none⟩ 2).2 = 2 ∧
    ¬ (authedSeq authOracleEmpty aopts0 ⟨none⟩ 2).2 ≤ 1 := by
  exact ⟨rfl, by decide⟩

/-- C7 (amended): provided the authentication endpoint responds successfully
and its entry id encodes to a nonempty (JS-truthy) string, the ticket is
acquired at most once across any number of sequential authenticated requests
issued through the shared slot by the client or by any of its file handles:
the first such request stores the encoded entry id in the slot and every
later one reuses it without contacting the authentication endpoint again; a
slot already holding a truthy id is reused with no request at all. -/
theorem claim_C7_ticket_amended (authO : Req → Except JsErr AuthJson) (opts : AOpts)
    (j : AuthJson) (hresp : authO (authTicketReq opts) = .ok j)
    (hne : btoa j.entry.id ≠ "") :
    (∀ n, n ≥ 1 → authedSeq authO opts ⟨none⟩ n = (⟨some (btoa j.entry.id)⟩, 1)) ∧
    (∀ n, (authedSeq authO opts ⟨none⟩ n).2 ≤ 1) ∧
    (∀ v, v ≠ "" → authedStep authO opts ⟨some v⟩ = (⟨some v⟩, 0)) := by
  have hurl : ((authTicketReq opts).url == (authTicketReq opts).url) = true := by
    simp
  have hstep0 : authedStep authO opts ⟨none⟩ = (⟨some (btoa j.entry.id)⟩, 1) := by
    simp [authedStep, getTicket, createTicket, hresp, hurl, List.filter]
  have hstepv : ∀ v, v ≠ "" → authedStep authO opts ⟨some v⟩ = (⟨some v⟩, 0) := by
    intro v hv
    simp [authedStep, getTicket, hv, List.filter]
  have hstable : ∀ n v, v ≠ "" → authedSeq authO opts ⟨some v⟩ n = (⟨some v⟩, 0) := by
    intro n
    induction n with
    | zero => intro v hv; rfl
    | succ m ih =>
      intro v hv
      show (let s := authedStep authO opts ⟨some v⟩
            let r := authedSeq authO opts s.1 m
            (r.1, s.2 + r.2)) = (⟨some v⟩, 0)
      rw [hstepv v hv]
      simp [ih v hv]
  refine ⟨?_, ?_, hstepv⟩
  · intro n hn
    cases n with
    | zero => cases hn
    | succ m =>
      show (let s := authedStep authO opts ⟨none⟩
            let r := authedSeq authO opts s.1 m
            (r.1, s.2 + r.2)) = (⟨some (btoa j.entry.id)⟩, 1)
      rw [hstep0]
      simp [hstable m (btoa j.entry.id) hne]
  · intro n
    cases n with
    | zero => exact Nat.zero_le 1
    | succ m =>
      have h1 : authedSeq authO opts ⟨none⟩ (m + 1) = (⟨some (btoa j.entry.id)⟩, 1) := by
        show (let s := authedStep authO opts ⟨none⟩
              let r := authedSeq authO opts s.1 m
              (r.1, s.2 + r.2)) = (⟨some (btoa j.entry.id)⟩, 1)
        rw [hstep0]
        simp [hstable m (btoa j.entry.id) hne]
      rw [h1]

/-- C7 witness: a truthy encoded id is fetched once over three sequential
requests; a cached truthy slot answers with no request. -/
theorem claim_C7_witness :
    authedSeq authOracle0 aopts0 ⟨none⟩ 3 = (⟨some (btoa "abc")⟩, 1) ∧
    authedStep authOracle0 aopts0 ⟨some "T"⟩ = (⟨some "T"⟩, 0) := by
  constructor
  · exact (claim_C7_ticket_amended authOracle0 aopts0 ⟨⟨"abc"⟩⟩ rfl (by decide)).1 3
      (by decide)
  · exact (claim_C7_ticket_amended authOracle0 aopts0 ⟨⟨"abc"⟩⟩ rfl (by decide)).2.2 "T"
      (by decide)

/-! ### Claim C9 -/

/-- C9: on both backends `#cloneOptions` yields a freshly allocated object —
its reference is new (the old heap top), and every previously existing
object, the stored base configuration in particular, is untouched — and in
the merged result a call-specific override takes precedence over the
instance defaults (for the Alfresco variant, also over the injected ticket
entry, which itself shadows any base entry of that name). -/
theorem claim_C9_clone_options (h : Heap) (baseRef : Nat) (a : Obj) (tRef : Nat)
    (hna : (objKeys a).Nodup) (hnb : (objKeys (heapGet h baseRef)).Nodup) :
    (GitlabClient.cloneOptions h baseRef [some a]).2 = h.length ∧
    (∀ i, i < h.length →
      heapGet (GitlabClient.cloneOptions h baseRef [some a]).1 i = heapGet h i) ∧
    (∀ key, alookup (heapGet (GitlabClient.cloneOptions h baseRef [some a]).1
        (GitlabClient.cloneOptions h baseRef [some a]).2) key
      = ofirst (alookup a key) (alookup (heapGet h baseRef) key)) ∧
    (AlfrescoClient.cloneOptions h baseRef tRef [some a]).2 = h.length ∧
    (∀ i, i < h.length →
      heapGet (AlfrescoClient.cloneOptions h baseRef tRef [some a]).1 i = heapGet h i) ∧
    (∀ key, alookup (heapGet (AlfrescoClient.cloneOptions h baseRef tRef [some a]).1
        (AlfrescoClient.cloneOptions h baseRef tRef [some a]).2) key
      = ofirst (alookup a key)
          (if key = "ticket" then some (.ref tRef)
           else alookup (heapGet h baseRef) key)) := by
  have hift : ∀ (c : Prop) (inst : Decidable c) (x : JsVal) (y : Option JsVal),
      ofirst (if c then some x else none) y = if c then some x else y := by
    intro c inst x y
    by_cases hc : c <;> simp [hc, ofirst]
  refine ⟨rfl, ?_, ?_, rfl, ?_, ?_⟩
  · intro i hi
    exact heapGet_append_lt h _ i hi
  · intro key
    have hget : heapGet (GitlabClient.cloneOptions h baseRef [some a]).1
        (GitlabClient.cloneOptions h baseRef [some a]).2
        = objAssign (objAssign [] (heapGet h baseRef)) a :=
      heapGet_append_self h _
    rw [hget, alookup_objAssign, alookup_objAssign, alookup_reverse_of_nodup a hna,
      alookup_reverse_of_nodup _ hnb]
    simp [alookup, ofirst_none_right]
  · intro i hi
    exact heapGet_append_lt h _ i hi
  · intro key
    have hget : heapGet (AlfrescoClient.cloneOptions h baseRef tRef [some a]).1
        (AlfrescoClient.cloneOptions h baseRef tRef [some a]).2
        = objAssign (objAssign (objAssign [] (heapGet h baseRef))
            [("ticket", .ref tRef)]) a :=
      heapGet_append_self h _
    rw [hget, alookup_objAssign, alookup_objAssign, alookup_objAssign,
      alookup_reverse_of_nodup a hna, alookup_reverse_of_nodup _ hnb]
    rw [show ([("ticket", JsVal.ref tRef)] : Obj).reverse = [("ticket", JsVal.ref tRef)]
      from rfl]
    simp only [alookup, ofirst_none_right]
    rw [hift (key = "ticket") _ (.ref tRef) (alookup (heapGet h baseRef) key)]

/-- C9 witness: a two-field base configuration and a one-field override,
on both backends. -/
theorem claim_C9_witness :
    (GitlabClient.cloneOptions [[("bucket", .str "base"), ("branch", .str "main")]] 0
      [some [("bucket", .str "override")]]).2 = 1 ∧
    heapGet (GitlabClient.cloneOptions [[("bucket", .str "base"), ("branch", .str "main")]]
      0 [some [("bucket", .str "override")]]).1 0
      = [("bucket", .str "base"), ("branch", .str "main")] ∧
    alookup (heapGet (GitlabClient.cloneOptions
        [[("bucket", .str "base"), ("branch", .str "main")]] 0
        [some [("bucket", .str "override")]]).1 1) "bucket" = some (.str "override") ∧
    alookup (heapGet (GitlabClient.cloneOptions
        [[("bucket", .str "base"), ("branch", .str "main")]] 0
        [some [("bucket", .str "override")]]).1 1) "branch" = some (.str "main") ∧
    alookup (heapGet (AlfrescoClient.cloneOptions
        [[("bucket", .str "base"), ("branch", .str "main")]] 0 5
        [some [("bucket", .str "override")]]).1 1) "ticket" = some (.ref 5) := by
  have h := claim_C9_clone_options [[("bucket", .str "base"), ("branch", .str "main")]] 0
    [("bucket", .str "override")] 5 (by decide) (by decide)
  exact ⟨h.1, h.2.1 0 (by decide), h.2.2.1 "bucket", h.2.2.1 "branch",
    h.2.2.2.2.2 "ticket"⟩

/-! ### Claim C10 -/

/-- C10: on both backends `slice(start, end, contentType)` writes
`sliceStart`, `sliceEnd` and `sliceContentType` into the receiver's existing
option object in place; the returned new handle shares that same option
object by reference, no other heap object changes, and the *original*
handle's option object afterwards carries the recorded overrides. -/
theorem claim_C10_slice_shared (h : Heap) (f : FileRefs) (s e : Option Int)
    (ct : Option String) (hr : f.optRef < h.length) :
    ((GitlabFile.slice h f s e ct).2.optRef = f.optRef ∧
     alookup (heapGet (GitlabFile.slice h f s e ct).1 f.optRef) "sliceStart"
       = some (jsOfNum s) ∧
     alookup (heapGet (GitlabFile.slice h f s e ct).1 f.optRef) "sliceEnd"
       = some (jsOfNum e) ∧
     alookup (heapGet (GitlabFile.slice h f s e ct).1 f.optRef) "sliceContentType"
       = some (jsOfStr ct) ∧
     (∀ r, r ≠ f.optRef → heapGet (GitlabFile.slice h f s e ct).1 r = heapGet h r)) ∧
    ((AlfrescoFile.slice h f s e ct).2.optRef = f.optRef ∧
     alookup (heapGet (AlfrescoFile.slice h f s e ct).1 f.optRef) "sliceStart"
       = some (jsOfNum s) ∧
     alookup (heapGet (AlfrescoFile.slice h f s e ct).1 f.optRef) "sliceEnd"
       = some (jsOfNum e) ∧
     alookup (heapGet (AlfrescoFile.slice h f s e ct).1 f.optRef) "sliceContentType"
       = some (jsOfStr ct) ∧
     (∀ r, r ≠ f.optRef → heapGet (AlfrescoFile.slice h f s e ct).1 r = heapGet h r)) := by
  have hgetg : heapGet (GitlabFile.slice h f s e ct).1 f.optRef
      = aset (aset (aset (heapGet h f.optRef) "sliceStart" (jsOfNum s))
          "sliceEnd" (jsOfNum e)) "sliceContentType" (jsOfStr ct) :=
    heapGet_heapSet_self h f.optRef _ hr
  have hgeta : heapGet (AlfrescoFile.slice h f s e ct).1 f.optRef
      = aset (aset (aset (heapGet h f.optRef) "sliceStart" (jsOfNum s))
          "sliceEnd" (jsOfNum e)) "sliceContentType" (jsOfStr ct) :=
    heapGet_heapSet_self h f.optRef _ hr
  refine ⟨⟨rfl, ?_, ?_, ?_, ?_⟩, ⟨rfl, ?_, ?_, ?_, ?_⟩⟩
  · rw [hgetg, alookup_aset, if_neg (by decide), alookup_aset, if_neg (by decide),
      alookup_aset, if_pos rfl]
  · rw [hgetg, alookup_aset, if_neg (by decide), alookup_aset, if_pos rfl]
  · rw [hgetg, alookup_aset, if_pos rfl]
  · intro r hne
    exact heapGet_heapSet_ne h f.optRef r _ hne
  · rw [hgeta, alookup_aset, if_neg (by decide), alookup_aset, if_neg (by decide),
      alookup_aset, if_pos rfl]
  · rw [hgeta, alookup_aset, if_neg (by decide), alookup_aset, if_pos rfl]
  · rw [hgeta, alookup_aset, if_pos rfl]
  · intro r hne
    exact heapGet_heapSet_ne h f.optRef r _ hne

/-- C10 witness: a concrete one-object heap; the original handle's options
carry the recorded range after `slice`, and the returned handle points at the
same reference. -/
theorem claim_C10_witness :
    (GitlabFile.slice [[("bucket", .str "b")]] ⟨.str "p", 0⟩ (some 1) (some 5)
      (some "text/plain")).2.optRef = 0 ∧
    alookup (heapGet (GitlabFile.slice [[("bucket", .str "b")]] ⟨.str "p", 0⟩ (some 1)
      (some 5) (some "text/plain")).1 0) "sliceStart" = some (.num 1) ∧
    alookup (heapGet (AlfrescoFile.slice [[("bucket", .str "b")]] ⟨.str "p", 0⟩ (some 1)
      (some 5) (some "text/plain")).1 0) "sliceContentType" = some (.str "text/plain") := by
  have h := claim_C10_slice_shared [[("bucket", .str "b")]] ⟨.str "p", 0⟩ (some 1) (some 5)
    (some "text/plain") (by decide)
  exact ⟨h.1.1, h.1.2.1, h.2.2.2.2.1⟩

/-! ### Sanity checks of the JS and path primitives against their
reference behavior -/

theorem pathJoin_collapses_scheme_slashes :
    pathJoin ["http://localhost:9000", "b", "-/raw", "main", "123.json"]
      = "http:/localhost:9000/b/-/raw/main/123.json" := by decide

theorem pathJoin_plain_segments :
    pathJoin ["e", "api", "v4", "projects", "7", "repository/files", "a%2Fb.txt"]
      = "e/api/v4/projects/7/repository/files/a%2Fb.txt" := by decide

theorem btoa_samples : btoa "" = "" ∧ btoa "Man" = "TWFu" ∧ btoa "ab" = "YWI=" := by
  exact ⟨by decide, by decide, by decide⟩

theorem encodeURIComponent_sample :
    encodeURIComponent "a/b c.txt" = "a%2Fb%20c.txt" := by decide
